import Mathlib

/-!
Shallow embedding of the OpenWebUI-Monitor billing core: the usage-to-cost
engine of `src/app/api/v1/outlet/route.ts`, the balance primitives of
`src/lib/db/users.ts`, the reset scheduler of `src/lib/scheduler.ts`
(`src/unnamed/part_002`), and the reset route of
`src/app/api/v1/users/reset-balances/route.ts`.

Monetary amounts (JS numbers / SQL DECIMAL(16,4)) are modelled as `ℚ`,
token counts as `ℤ`, character counts as `ℕ`.  The external
`gpt-tokenizer` `encode` is an abstract parameter `enc : String → ℕ`
giving the token count of a string; the external `getModelInletCost`
lookup is the abstract field `Config.inletCost`.
-/

/-- The balance ceiling `999999.9999` used by the SQL `LEAST` caps and the
overflow checks. -/
def maxBalance : ℚ := 999999.9999

/-- SQL `LEAST` on two DECIMAL values, as an executable conditional. -/
def least (a b : ℚ) : ℚ := if a ≤ b then a else b

/-- A row of `model_prices` (interface `ModelPrice` in the outlet route). -/
structure ModelPrice where
  id : String
  name : String
  input_price : ℚ
  output_price : ℚ
  per_msg_price : ℚ
deriving DecidableEq

/-- An environment-sourced numeric setting as `parseFloat(process.env.X || dflt)`
sees it: `unset` is an absent or empty (falsy) variable, `nan` is a set value
that does not parse to a number, `num q` is a set value parsing to `q`. -/
inductive EnvNum
  | unset
  | nan
  | num (q : ℚ)
deriving DecidableEq

/-- `parseFloat(env || "60")` for a default-price setting: an unset or empty
variable falls back to the literal `"60"`; an unparsable value is `NaN`
(encoded `none`). -/
def parseFloatOr60 : EnvNum → Option ℚ
  | .unset => some 60
  | .nan => none
  | .num q => some q

/-- Configuration and external collaborators consumed by the outlet route:
the two default-price environment settings and the inlet-cost lookup
(`getModelInletCost`, an external module: per model id, a previously
assessed provider-side credit). -/
structure Config where
  defaultInputPrice : EnvNum
  defaultOutputPrice : EnvNum
  inletCost : String → ℚ

/-- A row of `user_usage_records` as inserted by the outlet route. -/
structure UsageRecord where
  user_id : String
  nickname : String
  model_name : String
  input_tokens : ℤ
  output_tokens : ℤ
  cost : ℚ
  balance_after : ℚ
deriving DecidableEq

/-- A row of `users` (schema of `ensureUserTableExists`). -/
structure UserRow where
  id : String
  email : String
  name : String
  role : String
  balance : ℚ
  default_balance : ℚ
  deleted : Bool
deriving DecidableEq

/-- A calendar date as the scheduler reads it off a JS `Date`:
`month` is 0-based (0 = January) exactly like `Date.getMonth()`,
`day` is `Date.getDate()` (1-based). -/
structure OwuDate where
  year : ℤ
  month : ℕ
  day : ℕ
deriving DecidableEq

/-- The database state touched by the embedded routes: `model_prices`,
`users`, `user_usage_records` (append-only), and the singleton
`system_settings` row `last_balance_reset`. -/
structure Db where
  prices : List ModelPrice
  users : List UserRow
  records : List UsageRecord
  lastReset : Option OwuDate
deriving DecidableEq

/-- `getModelPrice` of the outlet route: exact lookup in `model_prices`;
if absent, synthesize a per-token default record from the two environment
settings, or return `null` when either parses to `NaN` or is negative. -/
def getModelPrice (db : Db) (cfg : Config) (modelId : String) : Option ModelPrice :=
  match db.prices.find? (fun p => p.id = modelId) with
  | some p => some p
  | none =>
    match parseFloatOr60 cfg.defaultInputPrice, parseFloatOr60 cfg.defaultOutputPrice with
    | some dip, some dop =>
      if dip < 0 ∨ dop < 0 then none
      else some ⟨modelId, modelId, dip, dop, -1⟩
    | _, _ => none

/-- The total-cost computation of the outlet route (lines 137-150):
zero for zero output tokens, else the fixed per-message price when
`per_msg_price >= 0`, else per-token pricing per million tokens. -/
def calcTotalCost (price : ModelPrice) (inputTokens outputTokens : ℤ) : ℚ :=
  if outputTokens = 0 then 0
  else if price.per_msg_price ≥ 0 then price.per_msg_price
  else (inputTokens : ℚ) / 1000000 * price.input_price
       + (outputTokens : ℚ) / 1000000 * price.output_price

/-- Upstream-reported usage statistics carried on the last message
(`lastMessage.usage`); each field may be absent. -/
structure Usage where
  prompt_tokens : Option ℤ
  completion_tokens : Option ℤ
deriving DecidableEq

/-- A chat message as the outlet route reads it. -/
structure Message where
  role : String
  content : String
  usage : Option Usage
deriving DecidableEq

/-- JS truthiness of a possibly-absent numeric field: present and nonzero. -/
def truthyInt : Option ℤ → Bool
  | some n => n != 0
  | none => false

/-- The guard `lastMessage.usage && lastMessage.usage.prompt_tokens &&
lastMessage.usage.completion_tokens` of the outlet route: the usage object
exists and both counts are truthy (present and nonzero). -/
def reportedOk (m : Message) : Bool :=
  match m.usage with
  | some u => truthyInt u.prompt_tokens && truthyInt u.completion_tokens
  | none => false

/-- `messages.reduce((sum, msg) => sum + (msg.content?.length || 0), 0)`. -/
def totalCharsOf (messages : List Message) : ℕ :=
  messages.foldl (fun sum m => sum + m.content.length) 0

/-- `messages.reduce((sum, msg) => sum + encode(msg.content).length, 0)`. -/
def totalTokenized (enc : String → ℕ) (messages : List Message) : ℕ :=
  messages.foldl (fun sum m => sum + enc m.content) 0

/-- The token-source tags of the outlet route. -/
inductive TokenSource
  | LLM_USAGE
  | ESTIMATION
  | TOKENIZER
deriving DecidableEq

/-- The token derivation of the outlet route (lines 87-135): reported usage
when both counts are truthy; estimation at `Math.ceil(chars / 4)` when the
aggregate character count exceeds 50000; exact tokenization otherwise.
`Math.ceil (n / 4)` on a natural `n` is `(n + 3) / 4`. -/
def computeTokens (enc : String → ℕ) (messages : List Message) (lastMessage : Message) :
    ℤ × ℤ × TokenSource :=
  if reportedOk lastMessage then
    (((lastMessage.usage.map (fun u => u.prompt_tokens.getD 0)).getD 0),
     ((lastMessage.usage.map (fun u => u.completion_tokens.getD 0)).getD 0),
     TokenSource.LLM_USAGE)
  else
    let totalChars := totalCharsOf messages
    let outputChars := lastMessage.content.length
    if totalChars > 50000 then
      let totalTokens : ℤ := ((totalChars + 3) / 4 : ℕ)
      let outputTokens : ℤ := ((outputChars + 3) / 4 : ℕ)
      (totalTokens - outputTokens, outputTokens, TokenSource.ESTIMATION)
    else
      let outputTokens : ℤ := enc lastMessage.content
      let totalTokens : ℤ := totalTokenized enc messages
      (totalTokens - outputTokens, outputTokens, TokenSource.TOKENIZER)

/-- The inbound payload of the outlet route: `data.body.model`,
`data.body.messages`, `data.user.id`, `data.user.name || "Unknown User"`. -/
structure OutletRequest where
  model : String
  messages : List Message
  userId : String
  userName : String

/-- The error paths of the outlet transaction, each a `throw` caught by the
route's `ROLLBACK` handler: price lookup failure, an empty `messages` array
(reading `lastMessage.usage` on `undefined` throws), the empty `RETURNING`
set of the balance update, and the defensive overflow check. -/
inductive ChargeError
  | priceNotFound
  | noMessages
  | userNotFound
  | balanceOverflow
deriving DecidableEq

/-- The success payload of the outlet route response. -/
structure ChargeOk where
  inputTokens : ℤ
  outputTokens : ℤ
  totalCost : ℚ
  newBalance : ℚ
deriving DecidableEq

/-- Decidable equality of `Except` results, for evaluating fixtures. -/
instance {ε α : Type} [DecidableEq ε] [DecidableEq α] : DecidableEq (Except ε α)
  | .error a, .error b => decidable_of_iff (a = b) (by simp)
  | .error _, .ok _ => isFalse (by simp)
  | .ok _, .error _ => isFalse (by simp)
  | .ok a, .ok b => decidable_of_iff (a = b) (by simp)

/-- The row set produced by `UPDATE users SET balance = LEAST(balance - cost,
999999.9999) WHERE id = uid`: each matching row's balance becomes the capped
decrement of its own old balance. -/
def applyChargeUpdate (users : List UserRow) (uid : String) (cost : ℚ) : List UserRow :=
  users.map fun u => if u.id = uid then { u with balance := least (u.balance - cost) maxBalance } else u

/-- The `RETURNING balance` value of that update: the first matching row's
new balance, or `none` when no row matches (`rows.length === 0`). -/
def chargeReturning (users : List UserRow) (uid : String) (cost : ℚ) : Option ℚ :=
  (users.find? (fun u => u.id = uid)).map fun u => least (u.balance - cost) maxBalance

/-- The route's local `totalCost` for a resolved price and request:
`calcTotalCost` applied to the derived input/output token counts. -/
def totalCostOf (enc : String → ℕ) (modelPrice : ModelPrice) (req : OutletRequest)
    (lastMessage : Message) : ℚ :=
  calcTotalCost modelPrice (computeTokens enc req.messages lastMessage).1
    (computeTokens enc req.messages lastMessage).2.1

/-- The route's local `actualCost = totalCost - inletCost`: the net amount
debited from the balance, while the gross `totalCost` is what gets recorded. -/
def actualCostOf (cfg : Config) (enc : String → ℕ) (modelPrice : ModelPrice)
    (req : OutletRequest) (lastMessage : Message) : ℚ :=
  totalCostOf enc modelPrice req lastMessage - cfg.inletCost req.model

/-- The body of the outlet route's transaction (`BEGIN` .. `COMMIT`),
as an `Except`: every `throw` becomes an error and the caller rolls back. -/
def chargeTx (cfg : Config) (enc : String → ℕ) (db : Db) (req : OutletRequest) :
    Except ChargeError (Db × ChargeOk) :=
  match getModelPrice db cfg req.model with
  | none => .error .priceNotFound
  | some modelPrice =>
    match req.messages.getLast? with
    | none => .error .noMessages
    | some lastMessage =>
      match chargeReturning db.users req.userId
          (actualCostOf cfg enc modelPrice req lastMessage) with
      | none => .error .userNotFound
      | some newBalance =>
        if newBalance > maxBalance then .error .balanceOverflow
        else
          .ok ({ db with
                  users := applyChargeUpdate db.users req.userId
                    (actualCostOf cfg enc modelPrice req lastMessage),
                  records := db.records ++
                    [⟨req.userId, req.userName, req.model,
                      (computeTokens enc req.messages lastMessage).1,
                      (computeTokens enc req.messages lastMessage).2.1,
                      totalCostOf enc modelPrice req lastMessage, newBalance⟩] },
               ⟨(computeTokens enc req.messages lastMessage).1,
                (computeTokens enc req.messages lastMessage).2.1,
                totalCostOf enc modelPrice req lastMessage, newBalance⟩)

/-- The outlet `POST` handler around the transaction: a successful body
commits the new state, any thrown error is caught, the transaction rolled
back (the original `db` survives) and a failure response returned. -/
def outletPOST (cfg : Config) (enc : String → ℕ) (db : Db) (req : OutletRequest) :
    Db × Except ChargeError ChargeOk :=
  match chargeTx cfg enc db req with
  | .ok (dbNew, r) => (dbNew, .ok r)
  | .error e => (db, .error e)

/-- `getOrCreateUser`: `INSERT .. VALUES ($1,$2,$3,$4,$5,$5) ON CONFLICT (id)
DO UPDATE SET email = $2, name = $3 RETURNING *`, where `$5` is
`process.env.INIT_BALANCE || '0'` (here the already-cast `initBalance`).
A fresh row gets `balance = default_balance = initBalance`, uncapped. -/
def getOrCreateUser (db : Db) (initBalance : ℚ) (uid email uname role : String) :
    Db × UserRow :=
  match db.users.find? (fun x => x.id = uid) with
  | some existing =>
    let updated := { existing with email := email, name := uname }
    ({ db with users := db.users.map fun x =>
        if x.id = uid then { x with email := email, name := uname } else x },
     updated)
  | none =>
    let newRow : UserRow := ⟨uid, email, uname, role, initBalance, initBalance, false⟩
    ({ db with users := db.users ++ [newRow] }, newRow)

/-- `updateUserBalance`: reject a target value above the ceiling, else
`UPDATE users SET balance = LEAST(CAST($2 ..), 999999.9999) WHERE id = $1
RETURNING balance`, `User not found` on an empty row set. -/
def updateUserBalance (db : Db) (userId : String) (cost : ℚ) :
    Except String (Db × ℚ) :=
  if cost > maxBalance then .error "Balance exceeds maximum allowed value"
  else
    match db.users.find? (fun u => u.id = userId) with
    | none => .error "User not found"
    | some _ =>
      .ok ({ db with users := db.users.map fun x =>
              if x.id = userId then { x with balance := least cost maxBalance } else x },
           least cost maxBalance)

/-- `resetUserBalanceToDefault`: `UPDATE users SET balance = default_balance
WHERE id = $1 RETURNING balance`, `User not found` on an empty row set. -/
def resetUserBalanceToDefault (db : Db) (userId : String) :
    Except String (Db × ℚ) :=
  match db.users.find? (fun u => u.id = userId) with
  | none => .error "User not found"
  | some u =>
    .ok ({ db with users := db.users.map fun x =>
            if x.id = userId then { x with balance := x.default_balance } else x },
         u.default_balance)

/-- `resetAllBalancesToDefault`: set every non-deleted user's balance to
their default and return the number of rows touched. -/
def resetAllBalancesToDefault (db : Db) : Db × ℕ :=
  ({ db with users := db.users.map fun u =>
      if !u.deleted then { u with balance := u.default_balance } else u },
   (db.users.filter (fun u => !u.deleted)).length)

/-- `updateLastResetDate`: upsert the singleton `last_balance_reset` row
with the current timestamp. -/
def updateLastResetDate (db : Db) (now : OwuDate) : Db :=
  { db with lastReset := some now }

/-- The `BALANCE_RESET_DAY` environment setting as `parseInt(env || "1", 10)`
sees it: absent or empty falls back to `"1"`, unparsable is `NaN` (`nan`). -/
inductive EnvInt
  | unset
  | nan
  | num (n : ℤ)
deriving DecidableEq

/-- `parseInt(process.env.BALANCE_RESET_DAY || "1", 10)`; `none` encodes `NaN`. -/
def parsedResetDay : EnvInt → Option ℤ
  | .unset => some 1
  | .nan => none
  | .num n => some n

/-- `isAutoResetEnabled`: the parsed day is `> 0` (false on `NaN`, since
`NaN > 0` is false in JS). -/
def isAutoResetEnabled (e : EnvInt) : Bool :=
  match parsedResetDay e with
  | some d => d > 0
  | none => false

/-- `getConfiguredResetDay`: `Math.min(Math.max(day, 1), 31)`; `none` encodes
the `NaN` that `Math.max`/`Math.min` propagate from an unparsable setting. -/
def getConfiguredResetDay (e : EnvInt) : Option ℤ :=
  (parsedResetDay e).map fun d => min (max d 1) 31

/-- Gregorian leap-year rule, as realised by the JS `Date` calendar. -/
def isLeapYear (y : ℤ) : Bool :=
  (y % 4 == 0 && y % 100 != 0) || y % 400 == 0

/-- `new Date(year, month + 1, 0).getDate()`: the number of days of 0-based
`month` of `year`. -/
def daysInMonth (y : ℤ) (m : ℕ) : ℕ :=
  match m with
  | 0 => 31
  | 1 => if isLeapYear y then 29 else 28
  | 2 => 31
  | 3 => 30
  | 4 => 31
  | 5 => 30
  | 6 => 31
  | 7 => 31
  | 8 => 30
  | 9 => 31
  | 10 => 30
  | _ => 31

/-- `getEffectiveResetDay`: `Math.min(configured, lastDayOfMonth)`, `NaN`
(encoded `none`) propagating from an unparsable setting. -/
def getEffectiveResetDay (e : EnvInt) (date : OwuDate) : Option ℤ :=
  (getConfiguredResetDay e).map fun c => min c (daysInMonth date.year date.month)

/-- `shouldAutoResetNow` (scheduler): false when disabled; false when
`currentDay < resetDay` (a comparison against `NaN` is false in JS, hence the
`none` branch); false when the persisted last reset has the same
`getMonth()` and `getFullYear()` as `date`; true otherwise. -/
def shouldAutoResetNow (e : EnvInt) (lastReset : Option OwuDate) (date : OwuDate) : Bool :=
  if !isAutoResetEnabled e then false
  else
    let dayLt : Bool :=
      match getEffectiveResetDay e date with
      | some r => decide ((date.day : ℤ) < r)
      | none => false
    if dayLt then false
    else
      match lastReset with
      | some lr =>
        if lr.month == date.month && lr.year == date.year then false else true
      | none => true

/-- The `POST` handler of the reset-balances route: with a `userId` it resets
that single user and returns; without one it consults `shouldAutoResetNow`
(unless forced), then resets every user and stamps `last_balance_reset`.
The returned `Bool` is the response's `success` flag. -/
def resetBalancesPOST (e : EnvInt) (now : OwuDate) (db : Db)
    (userId : Option String) (force : Bool) : Db × Bool :=
  match userId with
  | some uid =>
    match resetUserBalanceToDefault db uid with
    | .ok (dbNew, _) => (dbNew, true)
    | .error _ => (db, false)
  | none =>
    if !force && !shouldAutoResetNow e db.lastReset now then (db, false)
    else
      let dbNew := (resetAllBalancesToDefault db).1
      (updateLastResetDate dbNew now, true)

/-- Spec-side: the persisted last reset falls in the same calendar month and
year as `date` (false when no last reset is recorded). -/
def sameCalendarMonth (lastReset : Option OwuDate) (date : OwuDate) : Bool :=
  match lastReset with
  | some lr => lr.month == date.month && lr.year == date.year
  | none => false

/-- Spec-side: the day of `date` is strictly below the effective reset day
(false when the configured day is unparsable). -/
def dayBeforeEffective (e : EnvInt) (date : OwuDate) : Bool :=
  match getEffectiveResetDay e date with
  | some r => decide ((date.day : ℤ) < r)
  | none => false

/-- Fixed counterexample data for the reported-usage precedence: a last
message that carries explicit usage counts `prompt_tokens = 5`,
`completion_tokens = 0`. -/
def cexReportedMsg : Message :=
  ⟨"assistant", "hi", some ⟨some 5, some 0⟩⟩

/-- A 50004-character message, pushing the aggregate character count over the
estimation threshold. -/
def bigMsg : Message := ⟨"assistant", String.mk (List.replicate 50004 'a'), none⟩

/-- A fixture configuration for a successful charge: well-formed default
prices and a nonzero inlet credit of 5 for every model. -/
def okCfg : Config := ⟨.num 1, .num 1, fun _ => 5⟩

/-- A fixture database for a successful charge: one stored per-token price
and one user with balance 100. -/
def okDb : Db :=
  ⟨[⟨"m", "m", 0, 1000000, -1⟩], [⟨"u", "e", "n", "user", 100, 0, false⟩], [], none⟩

/-- A fixture request for a successful charge: one 2-character assistant
message without reported usage. -/
def okReq : OutletRequest := ⟨"m", [⟨"assistant", "hi", none⟩], "u", "n"⟩

/-- The database state the fixture charge commits: gross cost 2 recorded,
net cost `2 - 5 = -3` debited, so the balance rises to 103. -/
def okDbRes : Db :=
  ⟨[⟨"m", "m", 0, 1000000, -1⟩], [⟨"u", "e", "n", "user", 103, 0, false⟩],
   [⟨"u", "n", "m", 0, 2, 2, 103⟩], none⟩

/-- A fixture database whose only user already sits exactly at the balance
ceiling. -/
def cexGrossDb : Db :=
  ⟨[⟨"m", "m", 1, 1, -1⟩], [⟨"u", "e", "n", "user", maxBalance, 0, false⟩], [], none⟩

/-- A fixture configuration with a nonzero inlet credit of 5. -/
def cexGrossCfg : Config := ⟨.num 1, .num 1, fun _ => 5⟩

/-- A fixture request whose message is empty, so zero output tokens are
derived and the gross cost is 0. -/
def cexGrossReq : OutletRequest := ⟨"m", [⟨"assistant", "", none⟩], "u", "n"⟩

/-- The committed state of that charge: the `LEAST` cap clamps the refunded
balance back to the ceiling, leaving the balance unchanged. -/
def cexGrossDbRes : Db :=
  ⟨[⟨"m", "m", 1, 1, -1⟩], [⟨"u", "e", "n", "user", maxBalance, 0, false⟩],
   [⟨"u", "n", "m", 0, 0, 0, maxBalance⟩], none⟩

/-- A two-user fixture database for the single-user reset frame property. -/
def twoUserDb : Db :=
  ⟨[], [⟨"a", "ea", "na", "user", 3, 7, false⟩, ⟨"b", "eb", "nb", "user", 5, 9, false⟩],
   [⟨"a", "na", "m", 1, 1, 1, 2⟩], some ⟨2025, 3, 1⟩⟩

theorem one_le_daysInMonth (y : ℤ) (m : ℕ) : 1 ≤ daysInMonth y m := by
  unfold daysInMonth
  split <;> first | decide | (split <;> decide)

/-- C1: the total cost of a charge follows the three-branch rule, in order:
zero when `output_tokens = 0`; the fixed `per_msg_price` when that price is
nonnegative; else per-token pricing
`input_tokens / 1000000 * input_price + output_tokens / 1000000 * output_price`. -/
theorem calcTotalCost_three_branch (price : ModelPrice) (inputTokens outputTokens : ℤ) :
    (outputTokens = 0 → calcTotalCost price inputTokens outputTokens = 0) ∧
    (outputTokens ≠ 0 → price.per_msg_price ≥ 0 →
      calcTotalCost price inputTokens outputTokens = price.per_msg_price) ∧
    (outputTokens ≠ 0 → price.per_msg_price < 0 →
      calcTotalCost price inputTokens outputTokens =
        (inputTokens : ℚ) / 1000000 * price.input_price
        + (outputTokens : ℚ) / 1000000 * price.output_price) := by
  refine ⟨fun h => by simp [calcTotalCost, h], fun h h2 => by simp [calcTotalCost, h, h2],
    fun h h2 => ?_⟩
  simp [calcTotalCost, h, not_le.mpr h2]

/-- Witness for C1: the end-to-end example — prices 2 and 6 per million,
per-message sentinel `-1`, 1000 input and 500 output tokens, cost `0.005`. -/
theorem calcTotalCost_three_branch_witness :
    calcTotalCost ⟨"m", "m", 2, 6, -1⟩ 1000 500 =
      (1000 : ℚ) / 1000000 * 2 + (500 : ℚ) / 1000000 * 6 :=
  (calcTotalCost_three_branch ⟨"m", "m", 2, 6, -1⟩ 1000 500).2.2 (by decide) (by decide)

/-- C7: the effective reset day is the minimum of the configured reset day
and the last day of the date's month; for configured day 31 it is 28 in the
28-day February 2025, 30 in April, 31 in January. -/
theorem getEffectiveResetDay_min (e : EnvInt) (date : OwuDate) :
    (∀ c, getConfiguredResetDay e = some c →
       getEffectiveResetDay e date = some (min c (daysInMonth date.year date.month))) ∧
    getEffectiveResetDay (.num 31) ⟨2025, 1, 10⟩ = some 28 ∧
    getEffectiveResetDay (.num 31) ⟨2025, 3, 10⟩ = some 30 ∧
    getEffectiveResetDay (.num 31) ⟨2025, 0, 10⟩ = some 31 := by
  refine ⟨fun c hc => ?_, by decide, by decide, by decide⟩
  simp [getEffectiveResetDay, hc]

/-- Witness for C7: configured day 5 in February 2024. -/
theorem getEffectiveResetDay_min_witness :
    getEffectiveResetDay (.num 5) ⟨2024, 1, 3⟩ = some (min 5 (daysInMonth 2024 1)) :=
  (getEffectiveResetDay_min (.num 5) ⟨2024, 1, 3⟩).1 5 (by decide)

/-- C4: `shouldAutoResetNow` is false when auto-reset is disabled, false when
the day is before the effective reset day, false when the persisted last
reset falls in the same calendar month and year, and true otherwise; and
(catch-up) with configured day 1 and a last reset two calendar months back it
is true on any day of the current month. -/
theorem shouldAutoResetNow_spec :
    (∀ e lastReset date, shouldAutoResetNow e lastReset date =
       (isAutoResetEnabled e && !dayBeforeEffective e date &&
        !sameCalendarMonth lastReset date)) ∧
    (∀ (lr date : OwuDate), 1 ≤ date.day →
       date.year * 12 + (date.month : ℤ) = lr.year * 12 + (lr.month : ℤ) + 2 →
       shouldAutoResetNow (.num 1) (some lr) date = true) := by
  constructor
  · intro e lastReset date
    unfold shouldAutoResetNow dayBeforeEffective sameCalendarMonth
    cases h : isAutoResetEnabled e
    · simp
    · simp only [Bool.not_true, Bool.false_eq_true, if_false, Bool.true_and]
      cases hE : getEffectiveResetDay e date
      · simp only [Bool.not_false, Bool.true_and]
        cases lastReset with
        | none => rfl
        | some lr => by_cases hsame : (lr.month == date.month && lr.year == date.year) = true <;>
            simp [hsame]
      · rename_i r
        by_cases hlt : (date.day : ℤ) < r
        · simp [hlt]
        · simp only [hlt, decide_eq_true_eq, if_neg, decide_eq_false hlt, Bool.not_false,
            Bool.true_and]
          cases lastReset with
          | none => rfl
          | some lr => by_cases hsame : (lr.month == date.month && lr.year == date.year) = true <;>
              simp [hsame]
  · intro lr date hday hmm
    have hne : (lr.month == date.month && lr.year == date.year) = false := by
      rw [Bool.and_eq_false_iff]
      by_cases hm : lr.month = date.month
      · right
        rw [beq_eq_false_iff_ne]
        intro hy
        rw [hm, hy] at hmm
        omega
      · left
        rwa [beq_eq_false_iff_ne]
    have heff : getEffectiveResetDay (.num 1) date = some 1 := by
      have hd := one_le_daysInMonth date.year date.month
      simp only [getEffectiveResetDay, getConfiguredResetDay, parsedResetDay, Option.map_some]
      norm_num
      omega
    simp only [shouldAutoResetNow, isAutoResetEnabled, parsedResetDay, heff, hne]
    norm_num
    omega

/-- Witness for C4: the characterization at a concrete date, and catch-up
from June 2025 to an arbitrary mid-August day. -/
theorem shouldAutoResetNow_spec_witness :
    shouldAutoResetNow (.num 1) (some ⟨2025, 5, 15⟩) ⟨2025, 7, 20⟩ = true :=
  shouldAutoResetNow_spec.2 ⟨2025, 5, 15⟩ ⟨2025, 7, 20⟩ (by decide) (by decide)

/-- Counterexample to C2 as stated: the last message carries explicit
prompt/completion token counts (5 and 0), yet the route does not use them
verbatim with source `REPORTED`/`LLM_USAGE` — the truthiness guard rejects
the explicit zero and the exact tokenizer runs instead. -/
theorem computeTokens_reported_zero_cex :
    cexReportedMsg.usage = some ⟨some 5, some 0⟩ ∧
    computeTokens String.length [cexReportedMsg] cexReportedMsg =
      (0, 2, TokenSource.TOKENIZER) ∧
    ((0 : ℤ), (2 : ℤ), TokenSource.TOKENIZER) ≠
      ((5 : ℤ), (0 : ℤ), TokenSource.LLM_USAGE) := by
  refine ⟨rfl, rfl, by decide⟩

/-- C2 (amended): the precedence holds with the reported branch guarded by
truthiness — it fires only when both reported counts are present AND nonzero;
otherwise estimation (ceiling division by 4) above 50000 aggregate
characters, else exact tokenization of all messages with the last message
alone giving the output count and input = total − output. -/
theorem computeTokens_precedence :
    (∀ (enc : String → ℕ) (messages : List Message) (lastMessage : Message)
       (u : Usage) (p c : ℤ),
       lastMessage.usage = some u → u.prompt_tokens = some p →
       u.completion_tokens = some c → p ≠ 0 → c ≠ 0 →
       computeTokens enc messages lastMessage = (p, c, TokenSource.LLM_USAGE)) ∧
    (∀ (enc : String → ℕ) (messages : List Message) (lastMessage : Message),
       reportedOk lastMessage = false → totalCharsOf messages > 50000 →
       computeTokens enc messages lastMessage =
         ((((totalCharsOf messages + 3) / 4 : ℕ) : ℤ) -
            (((lastMessage.content.length + 3) / 4 : ℕ) : ℤ),
          (((lastMessage.content.length + 3) / 4 : ℕ) : ℤ), TokenSource.ESTIMATION)) ∧
    (∀ (enc : String → ℕ) (messages : List Message) (lastMessage : Message),
       reportedOk lastMessage = false → totalCharsOf messages ≤ 50000 →
       computeTokens enc messages lastMessage =
         ((totalTokenized enc messages : ℤ) - (enc lastMessage.content : ℤ),
          (enc lastMessage.content : ℤ), TokenSource.TOKENIZER)) := by
  refine ⟨fun enc messages lastMessage u p c hu hp hc hpne hcne => ?_,
    fun enc messages lastMessage hrep hbig => ?_,
    fun enc messages lastMessage hrep hsmall => ?_⟩
  · have hok : reportedOk lastMessage = true := by
      simp [reportedOk, hu, truthyInt, hp, hc, hpne, hcne]
    simp [computeTokens, hok, hu, hp, hc]
  · simp [computeTokens, hrep, hbig]
  · simp [computeTokens, hrep, Nat.not_lt.mpr hsmall]

theorem bigMsg_content_length : bigMsg.content.length = 50004 := by
  show (List.replicate 50004 'a').length = 50004
  exact List.length_replicate _ _

theorem totalCharsOf_bigMsg : totalCharsOf [bigMsg] = 50004 := by
  show List.foldl (fun sum m => sum + m.content.length) 0 [bigMsg] = 50004
  rw [List.foldl_cons, List.foldl_nil]
  show 0 + bigMsg.content.length = 50004
  rw [bigMsg_content_length]

/-- Witness for C2 (amended): each branch at a concrete input — reported
counts 7/3 used verbatim; a single 50004-character message estimated at
`ceil(50004/4) = 12501` output tokens; and a small message tokenized. -/
theorem computeTokens_precedence_witness :
    computeTokens String.length [⟨"assistant", "ok", some ⟨some 7, some 3⟩⟩]
        ⟨"assistant", "ok", some ⟨some 7, some 3⟩⟩ = (7, 3, TokenSource.LLM_USAGE) ∧
    computeTokens String.length [bigMsg] bigMsg = (0, 12501, TokenSource.ESTIMATION) ∧
    computeTokens String.length [⟨"user", "hey", none⟩, ⟨"assistant", "hi", none⟩]
        ⟨"assistant", "hi", none⟩ = (3, 2, TokenSource.TOKENIZER) := by
  refine ⟨computeTokens_precedence.1 String.length _ _ ⟨some 7, some 3⟩ 7 3 rfl rfl rfl
      (by decide) (by decide), ?_, ?_⟩
  · have hrep : reportedOk bigMsg = false := rfl
    have := computeTokens_precedence.2.1 String.length [bigMsg] bigMsg hrep
      (by rw [totalCharsOf_bigMsg]; norm_num)
    rw [this, totalCharsOf_bigMsg, bigMsg_content_length]
    decide
  · have := computeTokens_precedence.2.2 String.length
      [⟨"user", "hey", none⟩, ⟨"assistant", "hi", none⟩]
      ⟨"assistant", "hi", none⟩ rfl (by decide)
    rw [this]
    decide

/-- Counterexample to C6 as stated: with both default-price settings entirely
absent from the environment and no stored price row, price resolution does
NOT return `NOT_FOUND` — `parseFloat(env || "60")` falls back to 60 and a
default per-token record is synthesized. -/
theorem getModelPrice_missing_env_cex :
    getModelPrice ⟨[], [], [], none⟩ ⟨.unset, .unset, fun _ => 0⟩ "gpt-x" =
      some ⟨"gpt-x", "gpt-x", 60, 60, -1⟩ ∧
    getModelPrice ⟨[], [], [], none⟩ ⟨.unset, .unset, fun _ => 0⟩ "gpt-x" ≠ none := by
  refine ⟨rfl, by decide⟩

theorem getModelPrice_of_find_none (db : Db) (cfg : Config) (m : String)
    (hfind : db.prices.find? (fun p => p.id = m) = none) :
    getModelPrice db cfg m =
      match parseFloatOr60 cfg.defaultInputPrice, parseFloatOr60 cfg.defaultOutputPrice with
      | some dip, some dop =>
        if dip < 0 ∨ dop < 0 then none
        else some ⟨m, m, dip, dop, -1⟩
      | _, _ => none := by
  unfold getModelPrice
  rw [hfind]

/-- C6 (amended): for a model with no stored price row, resolution returns
`NOT_FOUND` exactly when either default-price setting parses to `NaN` or is
negative; a missing or empty setting falls back to 60; otherwise a default
record with the two settings and per-token pricing (`per_msg_price = -1`)
is synthesized. -/
theorem getModelPrice_default_policy :
    (∀ (db : Db) (cfg : Config) (m : String),
       db.prices.find? (fun p => p.id = m) = none →
       (getModelPrice db cfg m = none ↔
         parseFloatOr60 cfg.defaultInputPrice = none ∨
         parseFloatOr60 cfg.defaultOutputPrice = none ∨
         (∃ q, parseFloatOr60 cfg.defaultInputPrice = some q ∧ q < 0) ∨
         (∃ q, parseFloatOr60 cfg.defaultOutputPrice = some q ∧ q < 0))) ∧
    (∀ (db : Db) (cfg : Config) (m : String) (dip dop : ℚ),
       db.prices.find? (fun p => p.id = m) = none →
       parseFloatOr60 cfg.defaultInputPrice = some dip →
       parseFloatOr60 cfg.defaultOutputPrice = some dop →
       0 ≤ dip → 0 ≤ dop →
       getModelPrice db cfg m = some ⟨m, m, dip, dop, -1⟩) ∧
    parseFloatOr60 .unset = some 60 := by
  refine ⟨fun db cfg m hfind => ?_, fun db cfg m dip dop hfind hip hop h0ip h0op => ?_, rfl⟩
  · rw [getModelPrice_of_find_none db cfg m hfind]
    cases hip : parseFloatOr60 cfg.defaultInputPrice with
    | none => exact ⟨fun _ => Or.inl rfl, fun _ => rfl⟩
    | some dip =>
      cases hop : parseFloatOr60 cfg.defaultOutputPrice with
      | none => exact ⟨fun _ => Or.inr (Or.inl rfl), fun _ => rfl⟩
      | some dop =>
        show (if dip < 0 ∨ dop < 0 then (none : Option ModelPrice)
              else some ⟨m, m, dip, dop, -1⟩) = none ↔ _
        by_cases hneg : dip < 0 ∨ dop < 0
        · rw [if_pos hneg]
          constructor
          · intro _
            rcases hneg with h | h
            · exact Or.inr (Or.inr (Or.inl ⟨dip, rfl, h⟩))
            · exact Or.inr (Or.inr (Or.inr ⟨dop, rfl, h⟩))
          · intro _
            rfl
        · rw [if_neg hneg]
          push_neg at hneg
          constructor
          · intro h
            simp at h
          · rintro (h | h | ⟨q, hq, hqneg⟩ | ⟨q, hq, hqneg⟩)
            · simp at h
            · simp at h
            · cases Option.some.inj hq
              exact absurd hqneg (not_lt.mpr hneg.1)
            · cases Option.some.inj hq
              exact absurd hqneg (not_lt.mpr hneg.2)
  · rw [getModelPrice_of_find_none db cfg m hfind, hip, hop]
    show (if dip < 0 ∨ dop < 0 then (none : Option ModelPrice)
          else some ⟨m, m, dip, dop, -1⟩) = _
    rw [if_neg (not_or.mpr ⟨not_lt.mpr h0ip, not_lt.mpr h0op⟩)]

/-- Witness for C6 (amended): a negative configured default yields
`NOT_FOUND`; well-formed defaults yield the synthesized record. -/
theorem getModelPrice_default_policy_witness :
    getModelPrice ⟨[], [], [], none⟩ ⟨.num (-3), .num 5, fun _ => 0⟩ "m" = none ∧
    getModelPrice ⟨[], [], [], none⟩ ⟨.num 2, .num 5, fun _ => 0⟩ "m" =
      some ⟨"m", "m", 2, 5, -1⟩ := by
  constructor
  · exact (getModelPrice_default_policy.1 ⟨[], [], [], none⟩ ⟨.num (-3), .num 5, fun _ => 0⟩
      "m" rfl).mpr (Or.inr (Or.inr (Or.inl ⟨-3, rfl, by norm_num⟩)))
  · exact getModelPrice_default_policy.2.1 ⟨[], [], [], none⟩ ⟨.num 2, .num 5, fun _ => 0⟩
      "m" 2 5 rfl rfl rfl (by norm_num) (by norm_num)

theorem least_le_right (a b : ℚ) : least a b ≤ b := by
  unfold least
  split
  · assumption
  · exact le_refl b

theorem least_eq_left {a b : ℚ} (h : a ≤ b) : least a b = a := if_pos h

theorem chargeReturning_le (users : List UserRow) (uid : String) (cost b : ℚ)
    (h : chargeReturning users uid cost = some b) : b ≤ maxBalance := by
  unfold chargeReturning at h
  cases hf : users.find? (fun u => u.id = uid) with
  | none => rw [hf] at h; exact absurd h (by simp)
  | some u =>
    rw [hf] at h
    have h2 : least (u.balance - cost) maxBalance = b := Option.some.inj h
    exact h2 ▸ least_le_right _ _

theorem chargeTx_ok_shape (cfg : Config) (enc : String → ℕ) (db : Db) (req : OutletRequest)
    (dbNew : Db) (r : ChargeOk)
    (h : chargeTx cfg enc db req = .ok (dbNew, r)) :
    dbNew.records = db.records ++
      [⟨req.userId, req.userName, req.model, r.inputTokens, r.outputTokens,
        r.totalCost, r.newBalance⟩] ∧
    dbNew.users = applyChargeUpdate db.users req.userId
      (r.totalCost - cfg.inletCost req.model) ∧
    dbNew.prices = db.prices ∧
    dbNew.lastReset = db.lastReset ∧
    chargeReturning db.users req.userId (r.totalCost - cfg.inletCost req.model) =
      some r.newBalance := by
  unfold chargeTx at h
  split at h
  · exact absurd h (by simp)
  · split at h
    · exact absurd h (by simp)
    · split at h
      · exact absurd h (by simp)
      · rename_i modelPrice hp lastMessage hl newBalance hcr
        split at h
        · exact absurd h (by simp)
        · rw [Except.ok.injEq, Prod.mk.injEq] at h
          obtain ⟨hdb, hr⟩ := h
          subst hdb
          subst hr
          exact ⟨rfl, rfl, rfl, rfl, hcr⟩

/-- C3: the outlet charge is transactionally atomic — any failing charge
rolls back (the database is returned unchanged: no usage record is inserted
and no balance moves), and a committed charge appends exactly one usage
record. -/
theorem outlet_atomicity (cfg : Config) (enc : String → ℕ) (db : Db) (req : OutletRequest) :
    (∀ e : ChargeError, (outletPOST cfg enc db req).2 = .error e →
       (outletPOST cfg enc db req).1 = db) ∧
    (∀ r : ChargeOk, (outletPOST cfg enc db req).2 = .ok r →
       (outletPOST cfg enc db req).1.records =
         db.records ++ [⟨req.userId, req.userName, req.model, r.inputTokens,
           r.outputTokens, r.totalCost, r.newBalance⟩] ∧
       (outletPOST cfg enc db req).1.records.length = db.records.length + 1) := by
  cases h : chargeTx cfg enc db req with
  | error e0 =>
    refine ⟨fun e he => ?_, fun r hr => ?_⟩
    · simp [outletPOST, h]
    · simp [outletPOST, h] at hr
  | ok p =>
    obtain ⟨dbNew, r0⟩ := p
    have hshape := chargeTx_ok_shape cfg enc db req dbNew r0 h
    refine ⟨fun e he => ?_, fun r hr => ?_⟩
    · simp [outletPOST, h] at he
    · simp only [outletPOST, h, Except.ok.injEq] at hr ⊢
      subst hr
      refine ⟨hshape.1, ?_⟩
      rw [hshape.1]
      simp

theorem chargeTx_ok_fixture :
    chargeTx okCfg String.length okDb okReq = .ok (okDbRes, ⟨0, 2, 2, 103⟩) := by
  norm_num [chargeTx, okCfg, okDb, okReq, okDbRes, getModelPrice, computeTokens, reportedOk,
    totalCharsOf, totalTokenized, actualCostOf, totalCostOf, calcTotalCost, chargeReturning,
    applyChargeUpdate, least, maxBalance, List.find?, show ("hi").length = 2 from rfl]

theorem chargeTx_gross_fixture :
    chargeTx cexGrossCfg String.length cexGrossDb cexGrossReq =
      .ok (cexGrossDbRes, ⟨0, 0, 0, maxBalance⟩) := by
  norm_num [chargeTx, cexGrossCfg, cexGrossDb, cexGrossReq, cexGrossDbRes, getModelPrice,
    computeTokens, reportedOk, totalCharsOf, totalTokenized, actualCostOf, totalCostOf,
    calcTotalCost, chargeReturning, applyChargeUpdate, least, maxBalance, List.find?,
    show ("").length = 0 from rfl]

theorem outletPOST_ok_fixture :
    outletPOST okCfg String.length okDb okReq = (okDbRes, .ok ⟨0, 2, 2, 103⟩) := by
  unfold outletPOST
  rw [chargeTx_ok_fixture]

/-- Witness for C3: a failing charge (unresolvable price) leaves the empty
database untouched; the fixture charge commits exactly one usage record. -/
theorem outlet_atomicity_witness :
    (outletPOST ⟨.nan, .nan, fun _ => 0⟩ String.length ⟨[], [], [], none⟩
        ⟨"m", [], "u", "n"⟩).1 = ⟨[], [], [], none⟩ ∧
    (outletPOST okCfg String.length okDb okReq).1.records.length =
      okDb.records.length + 1 := by
  refine ⟨(outlet_atomicity ⟨.nan, .nan, fun _ => 0⟩ String.length ⟨[], [], [], none⟩
      ⟨"m", [], "u", "n"⟩).1 .priceNotFound rfl, ?_⟩
  exact ((outlet_atomicity okCfg String.length okDb okReq).2 ⟨0, 2, 2, 103⟩
    (by rw [outletPOST_ok_fixture])).2

/-- C9: the balance update caps its result with `LEAST` at the ceiling, so a
committed charge's returned balance is at most `999999.9999` and the
subsequent defensive `BALANCE_OVERFLOW` branch can never be taken. -/
theorem outlet_overflow_unreachable (cfg : Config) (enc : String → ℕ) (db : Db)
    (req : OutletRequest) :
    chargeTx cfg enc db req ≠ Except.error ChargeError.balanceOverflow ∧
    (∀ dbNew r, chargeTx cfg enc db req = .ok (dbNew, r) → r.newBalance ≤ maxBalance) := by
  constructor
  · intro h
    unfold chargeTx at h
    split at h
    · simp at h
    · split at h
      · simp at h
      · split at h
        · simp at h
        · rename_i modelPrice hp lastMessage hl newBalance hcr
          split at h
          · rename_i hgt
            exact absurd hgt (not_lt.mpr (chargeReturning_le _ _ _ _ hcr))
          · simp at h
  · intro dbNew r hok
    exact chargeReturning_le _ _ _ _ (chargeTx_ok_shape cfg enc db req dbNew r hok).2.2.2.2

/-- Witness for C9: the fixture charge commits with a balance below the
ceiling. -/
theorem outlet_overflow_unreachable_witness :
    chargeTx okCfg String.length okDb okReq = .ok (okDbRes, ⟨0, 2, 2, 103⟩) ∧
    (103 : ℚ) ≤ maxBalance := by
  refine ⟨chargeTx_ok_fixture, ?_⟩
  exact (outlet_overflow_unreachable okCfg String.length okDb okReq).2 okDbRes
    ⟨0, 2, 2, 103⟩ chargeTx_ok_fixture

theorem applyChargeUpdate_mem_le (users : List UserRow) (uid : String) (cost : ℚ) :
    ∀ u ∈ applyChargeUpdate users uid cost, u.id = uid → u.balance ≤ maxBalance := by
  intro u hu hid
  obtain ⟨x, hxmem, hfx⟩ := List.mem_map.mp hu
  by_cases h : x.id = uid
  · rw [if_pos h] at hfx
    rw [← hfx]
    exact least_le_right _ _
  · rw [if_neg h] at hfx
    rw [← hfx] at hid
    exact absurd hid h

/-- Counterexample to C5 as stated: creating a user with a configured initial
balance of 1000000 commits a balance above the 999999.9999 maximum — the
`INSERT` of `getOrCreateUser` applies no cap and rejects nothing. -/
theorem balance_cap_creation_cex :
    (getOrCreateUser ⟨[], [], [], none⟩ 1000000 "u" "e" "n" "user").2.balance = 1000000 ∧
    (getOrCreateUser ⟨[], [], [], none⟩ 1000000 "u" "e" "n" "user").1.users =
      [⟨"u", "e", "n", "user", 1000000, 1000000, false⟩] ∧
    ¬((1000000 : ℚ) ≤ maxBalance) := by
  refine ⟨rfl, rfl, by norm_num [maxBalance]⟩

/-- C5 (amended): the charge mutations respect the ceiling — a committed
outlet charge leaves the charged user's balance at most 999999.9999 (the
`LEAST` cap clamps rather than rejects), and `updateUserBalance` caps its
result and rejects a target value above the maximum outright; user creation,
however, is uncapped (see the counterexample). -/
theorem balance_mutation_cap :
    (∀ (cfg : Config) (enc : String → ℕ) (db : Db) (req : OutletRequest) (dbNew : Db)
       (r : ChargeOk), chargeTx cfg enc db req = .ok (dbNew, r) →
       r.newBalance ≤ maxBalance ∧
       ∀ u ∈ dbNew.users, u.id = req.userId → u.balance ≤ maxBalance) ∧
    (∀ (db : Db) (uid : String) (cost : ℚ) (dbNew : Db) (b : ℚ),
       updateUserBalance db uid cost = .ok (dbNew, b) →
       b ≤ maxBalance ∧ ∀ u ∈ dbNew.users, u.id = uid → u.balance ≤ maxBalance) ∧
    (∀ (db : Db) (uid : String) (cost : ℚ), cost > maxBalance →
       updateUserBalance db uid cost = .error "Balance exceeds maximum allowed value") := by
  refine ⟨fun cfg enc db req dbNew r h => ?_, fun db uid cost dbNew b h => ?_,
    fun db uid cost hc => ?_⟩
  · have hs := chargeTx_ok_shape cfg enc db req dbNew r h
    refine ⟨chargeReturning_le _ _ _ _ hs.2.2.2.2, ?_⟩
    rw [hs.2.1]
    exact applyChargeUpdate_mem_le _ _ _
  · unfold updateUserBalance at h
    by_cases hgt : cost > maxBalance
    · rw [if_pos hgt] at h
      exact absurd h (by simp)
    · rw [if_neg hgt] at h
      cases hf : db.users.find? (fun u => u.id = uid) with
      | none => rw [hf] at h; exact absurd h (by simp)
      | some u0 =>
        rw [hf] at h
        rw [Except.ok.injEq, Prod.mk.injEq] at h
        obtain ⟨hdb, hb⟩ := h
        subst hdb
        subst hb
        refine ⟨least_le_right _ _, ?_⟩
        intro u hu hid
        obtain ⟨x, hxmem, hfx⟩ := List.mem_map.mp hu
        by_cases hxid : x.id = uid
        · rw [if_pos hxid] at hfx
          rw [← hfx]
          exact least_le_right _ _
        · rw [if_neg hxid] at hfx
          rw [← hfx] at hid
          exact absurd hid hxid
  · unfold updateUserBalance
    rw [if_pos hc]

theorem updateUserBalance_fixture :
    updateUserBalance ⟨[], [⟨"u", "e", "n", "user", 7, 0, false⟩], [], none⟩ "u" 5 =
      .ok (⟨[], [⟨"u", "e", "n", "user", 5, 0, false⟩], [], none⟩, 5) := by
  norm_num [updateUserBalance, least, maxBalance, List.find?]

/-- Witness for C5 (amended): a target of 1000000 is rejected; setting a
balance to 5 commits a value below the ceiling. -/
theorem balance_mutation_cap_witness :
    updateUserBalance ⟨[], [⟨"u", "e", "n", "user", 7, 0, false⟩], [], none⟩ "u" 1000000 =
      .error "Balance exceeds maximum allowed value" ∧
    (5 : ℚ) ≤ maxBalance := by
  refine ⟨balance_mutation_cap.2.2 ⟨[], [⟨"u", "e", "n", "user", 7, 0, false⟩], [], none⟩
    "u" 1000000 (by norm_num [maxBalance]), ?_⟩
  exact (balance_mutation_cap.2.1 ⟨[], [⟨"u", "e", "n", "user", 7, 0, false⟩], [], none⟩ "u" 5
    ⟨[], [⟨"u", "e", "n", "user", 5, 0, false⟩], [], none⟩ 5 updateUserBalance_fixture).1

/-- Counterexample to C10 as stated: a committed charge with a nonzero inlet
credit (5) whose recorded cost (0, the gross total) nevertheless equals the
actual change in the user's balance (0) — the user sits at the ceiling and
the `LEAST` cap clamps the refund away, so the balance does not move. -/
theorem outlet_gross_net_cex :
    cexGrossCfg.inletCost "m" = 5 ∧ (5 : ℚ) ≠ 0 ∧
    chargeTx cexGrossCfg String.length cexGrossDb cexGrossReq =
      .ok (cexGrossDbRes, ⟨0, 0, 0, maxBalance⟩) ∧
    cexGrossDbRes.users = cexGrossDb.users ∧
    cexGrossDbRes.records.map (fun x => x.cost) = [0] ∧
    (0 : ℚ) = maxBalance - maxBalance := by
  refine ⟨rfl, by norm_num, chargeTx_gross_fixture, rfl, rfl, by ring⟩

/-- C10 (amended): a committed charge records the gross `totalCost` in the
usage record while debiting the net `totalCost - inletCost`; whenever the
`LEAST` cap does not bind, the user's balance changes by exactly the net
cost, so with a nonzero inlet credit the recorded cost differs from the
actual balance change. -/
theorem outlet_gross_vs_net (cfg : Config) (enc : String → ℕ) (db : Db) (req : OutletRequest)
    (u : UserRow) (dbNew : Db) (r : ChargeOk)
    (hfind : db.users.find? (fun x => x.id = req.userId) = some u)
    (h : chargeTx cfg enc db req = .ok (dbNew, r)) :
    dbNew.records = db.records ++
      [⟨req.userId, req.userName, req.model, r.inputTokens, r.outputTokens,
        r.totalCost, r.newBalance⟩] ∧
    (u.balance - (r.totalCost - cfg.inletCost req.model) ≤ maxBalance →
      u.balance - r.newBalance = r.totalCost - cfg.inletCost req.model) ∧
    (u.balance - (r.totalCost - cfg.inletCost req.model) ≤ maxBalance →
      cfg.inletCost req.model ≠ 0 →
      r.totalCost ≠ u.balance - r.newBalance) := by
  have hs := chargeTx_ok_shape cfg enc db req dbNew r h
  have hret := hs.2.2.2.2
  unfold chargeReturning at hret
  rw [hfind] at hret
  have hbal : least (u.balance - (r.totalCost - cfg.inletCost req.model)) maxBalance =
      r.newBalance := Option.some.inj hret
  refine ⟨hs.1, fun hle => ?_, fun hle hinlet => ?_⟩
  · rw [← hbal, least_eq_left hle]
    ring
  · rw [← hbal, least_eq_left hle]
    intro heq
    apply hinlet
    linarith

/-- Witness for C10 (amended): the uncapped fixture — gross cost 2 recorded,
net cost −3 applied, balance 100 → 103, so the recorded cost differs from
the balance change. -/
theorem outlet_gross_vs_net_witness :
    okCfg.inletCost "m" = 5 ∧ ((100 : ℚ) - 103 = 2 - 5) ∧ ((2 : ℚ) ≠ 100 - 103) := by
  have h := outlet_gross_vs_net okCfg String.length okDb okReq
    ⟨"u", "e", "n", "user", 100, 0, false⟩ okDbRes ⟨0, 2, 2, 103⟩ rfl chargeTx_ok_fixture
  refine ⟨rfl, ?_, ?_⟩
  · have h2 := h.2.1 (by norm_num [okCfg, maxBalance])
    simpa [okCfg] using h2
  · have h2 := h.2.2 (by norm_num [okCfg, maxBalance]) (by norm_num [okCfg])
    simpa [okCfg] using h2

/-- C8: a forced single-user reset through the reset route updates only that
user's balance (to their default), leaving the persisted last-reset
timestamp, the usage records, the price table, and every other user's row
unchanged. -/
theorem reset_one_frame (e : EnvInt) (now : OwuDate) (db : Db) (uid : String) (force : Bool) :
    ((resetBalancesPOST e now db (some uid) force).1.lastReset = db.lastReset) ∧
    ((resetBalancesPOST e now db (some uid) force).1.records = db.records) ∧
    ((resetBalancesPOST e now db (some uid) force).1.prices = db.prices) ∧
    ((resetBalancesPOST e now db (some uid) force).1.users.length = db.users.length) ∧
    (∀ (i : ℕ) (h1 : i < db.users.length)
       (h2 : i < (resetBalancesPOST e now db (some uid) force).1.users.length),
       ((db.users.get ⟨i, h1⟩).id ≠ uid →
          (resetBalancesPOST e now db (some uid) force).1.users.get ⟨i, h2⟩ =
            db.users.get ⟨i, h1⟩) ∧
       ((db.users.get ⟨i, h1⟩).id = uid →
          ((resetBalancesPOST e now db (some uid) force).1.users.get ⟨i, h2⟩).balance =
            (db.users.get ⟨i, h1⟩).default_balance)) := by
  have hstep : resetBalancesPOST e now db (some uid) force =
      (match resetUserBalanceToDefault db uid with
       | .ok (dbNew, _) => (dbNew, true)
       | .error _ => (db, false)) := rfl
  rw [hstep]
  cases hres : resetUserBalanceToDefault db uid with
  | error s =>
    refine ⟨rfl, rfl, rfl, rfl, fun i h1 h2 => ⟨fun _ => rfl, fun hid => ?_⟩⟩
    unfold resetUserBalanceToDefault at hres
    cases hf : db.users.find? (fun u => u.id = uid) with
    | none =>
      have hnone := List.find?_eq_none.mp hf (db.users.get ⟨i, h1⟩) (db.users.get_mem _ _)
      simp only [decide_eq_true_eq] at hnone
      exact absurd hid hnone
    | some u => rw [hf] at hres; exact absurd hres (by simp)
  | ok p =>
    obtain ⟨dbNew, nb⟩ := p
    unfold resetUserBalanceToDefault at hres
    cases hf : db.users.find? (fun u => u.id = uid) with
    | none => rw [hf] at hres; exact absurd hres (by simp)
    | some u =>
      rw [hf] at hres
      rw [Except.ok.injEq, Prod.mk.injEq] at hres
      obtain ⟨hdb, hnb⟩ := hres
      subst hdb
      refine ⟨rfl, rfl, rfl, by simp, fun i h1 h2 => ⟨fun hid => ?_, fun hid => ?_⟩⟩
      · simp only [List.get_eq_getElem] at hid ⊢
        simp [List.getElem_map, hid]
      · simp only [List.get_eq_getElem] at hid ⊢
        simp [List.getElem_map, hid]

/-- Witness for C8: resetting user "b" of the two-user fixture leaves the
last-reset timestamp and user "a" untouched, and sets user "b"'s balance to
their default. -/
theorem reset_one_frame_witness :
    (resetBalancesPOST .unset ⟨2025, 7, 9⟩ twoUserDb (some "b") false).1.lastReset =
      twoUserDb.lastReset ∧
    (resetBalancesPOST .unset ⟨2025, 7, 9⟩ twoUserDb (some "b") false).1.users.get
        ⟨0, by decide⟩ = twoUserDb.users.get ⟨0, by decide⟩ ∧
    ((resetBalancesPOST .unset ⟨2025, 7, 9⟩ twoUserDb (some "b") false).1.users.get
        ⟨1, by decide⟩).balance = (twoUserDb.users.get ⟨1, by decide⟩).default_balance := by
  refine ⟨(reset_one_frame .unset ⟨2025, 7, 9⟩ twoUserDb "b" false).1, ?_, ?_⟩
  · exact ((reset_one_frame .unset ⟨2025, 7, 9⟩ twoUserDb "b" false).2.2.2.2 0 (by decide)
      (by decide)).1 (by decide)
  · exact ((reset_one_frame .unset ⟨2025, 7, 9⟩ twoUserDb "b" false).2.2.2.2 1 (by decide)
      (by decide)).2 (by decide)
